import Mathlib

/-!
# Verification of the ESPHome MQTT → TimescaleDB ingestor

Shallow embedding of `esphome_mqtt_timescaledb_ingestor/ingestor.py`:
the message classifier (`on_mqtt_message`), the five inter-stage queues,
and the database writer's flush cycle (`db_writer_thread`), together with
theorems settling the specification claims about them.

Conventions: machine time is modelled as an abstract `Nat` tick; the
database is a record of row lists; a transaction is an uncommitted copy of
the database held by the connection; Python dictionary/JSON values are the
`Json` inductive below; Python exceptions raised while building rows are
`Except PyErr`.
-/

namespace Ingestor

/-- JSON values as produced by Python's `json.loads`: objects keep insertion
order and a later duplicate key overwrites the earlier one (dict semantics).
Numbers keep their source lexeme (the claims never compare numerics). -/
inductive Json where
  | null : Json
  | bool : Bool → Json
  | num : String → Json
  | str : String → Json
  | arr : List Json → Json
  | obj : List (String × Json) → Json
  deriving Repr

mutual

/-- Structural equality of JSON values. -/
def Json.beq : Json → Json → Bool
  | .null, .null => true
  | .bool a, .bool b => a == b
  | .num a, .num b => a == b
  | .str a, .str b => a == b
  | .arr a, .arr b => Json.beqList a b
  | .obj a, .obj b => Json.beqFields a b
  | _, _ => false

/-- Structural equality of JSON value lists. -/
def Json.beqList : List Json → List Json → Bool
  | [], [] => true
  | x :: xs, y :: ys => Json.beq x y && Json.beqList xs ys
  | _, _ => false

/-- Structural equality of JSON object field lists. -/
def Json.beqFields : List (String × Json) → List (String × Json) → Bool
  | [], [] => true
  | (k1, v1) :: xs, (k2, v2) :: ys => k1 == k2 && Json.beq v1 v2 && Json.beqFields xs ys
  | _, _ => false

end

instance : BEq Json := ⟨Json.beq⟩

mutual

def Json.eq_of_beq : ∀ (a b : Json), Json.beq a b = true → a = b
  | .null, .null, _ => rfl
  | .bool a, .bool b, h => by
      simp only [Json.beq, beq_iff_eq] at h; exact congrArg Json.bool h
  | .num a, .num b, h => by
      simp only [Json.beq, beq_iff_eq] at h; exact congrArg Json.num h
  | .str a, .str b, h => by
      simp only [Json.beq, beq_iff_eq] at h; exact congrArg Json.str h
  | .arr a, .arr b, h => congrArg Json.arr (Json.eqList_of_beqList a b h)
  | .obj a, .obj b, h => congrArg Json.obj (Json.eqFields_of_beqFields a b h)

def Json.eqList_of_beqList : ∀ (a b : List Json), Json.beqList a b = true → a = b
  | [], [], _ => rfl
  | x :: xs, y :: ys, h => by
      simp only [Json.beqList, Bool.and_eq_true] at h
      exact congrArg₂ List.cons (Json.eq_of_beq x y h.1) (Json.eqList_of_beqList xs ys h.2)

def Json.eqFields_of_beqFields :
    ∀ (a b : List (String × Json)), Json.beqFields a b = true → a = b
  | [], [], _ => rfl
  | (k1, v1) :: xs, (k2, v2) :: ys, h => by
      simp only [Json.beqFields, Bool.and_eq_true, beq_iff_eq] at h
      have hk : k1 = k2 := h.1.1
      have hv : v1 = v2 := Json.eq_of_beq v1 v2 h.1.2
      have ht : xs = ys := Json.eqFields_of_beqFields xs ys h.2
      rw [hk, hv, ht]

end

mutual

def Json.beq_refl : ∀ (a : Json), Json.beq a a = true
  | .null => rfl
  | .bool a => by simp [Json.beq]
  | .num a => by simp [Json.beq]
  | .str a => by simp [Json.beq]
  | .arr a => Json.beqList_refl a
  | .obj a => Json.beqFields_refl a

def Json.beqList_refl : ∀ (a : List Json), Json.beqList a a = true
  | [] => rfl
  | x :: xs => by
      simp only [Json.beqList, Bool.and_eq_true]
      exact ⟨Json.beq_refl x, Json.beqList_refl xs⟩

def Json.beqFields_refl : ∀ (a : List (String × Json)), Json.beqFields a a = true
  | [] => rfl
  | (k, v) :: xs => by
      simp only [Json.beqFields, Bool.and_eq_true, beq_self_eq_true, true_and]
      exact ⟨Json.beq_refl v, Json.beqFields_refl xs⟩

end

instance : DecidableEq Json := fun a b =>
  decidable_of_iff (Json.beq a b = true)
    ⟨Json.eq_of_beq a b, fun h => h ▸ Json.beq_refl a⟩

/-- Python exceptions that row construction in the flush cycle can raise.
All of them fall into the generic `except Exception` handler of
`db_writer_thread` (only `psycopg2.Error` is handled separately). -/
inductive PyErr where
  | keyError : PyErr
  | typeError : PyErr
  | indexError : PyErr
  deriving Repr, DecidableEq

/-- Association lookup used for Python dict indexing on parsed JSON. -/
def jlookup : List (String × Json) → String → Option Json
  | [], _ => none
  | (k, v) :: rest, key => if k = key then some v else jlookup rest key

/-- Python `d[key]` on a JSON value: `KeyError` when the key is absent from a
dict, `TypeError` when the value is not a dict (string keys cannot index
lists, strings, numbers, booleans or null). -/
def pySubscript (j : Json) (key : String) : Except PyErr Json :=
  match j with
  | Json.obj fields =>
      match jlookup fields key with
      | some v => Except.ok v
      | none => Except.error PyErr.keyError
  | _ => Except.error PyErr.typeError

/-- Python `d.get(key)` on a value already known to be a dict
(`None` when absent); non-dicts yield `none` as the callers never reach
that case after a successful subscript. -/
def pyGet (j : Json) (key : String) : Option Json :=
  match j with
  | Json.obj fields => jlookup fields key
  | _ => none

/-- Python `x[0]`: first element of a list (IndexError when empty), first
character of a string (IndexError when empty), `TypeError`/`KeyError`
otherwise (an integer can never match a JSON object's string keys). -/
def pyIndexZero (j : Json) : Except PyErr Json :=
  match j with
  | Json.arr (x :: _) => Except.ok x
  | Json.arr [] => Except.error PyErr.indexError
  | Json.str s =>
      match s.data with
      | c :: _ => Except.ok (Json.str (String.mk [c]))
      | [] => Except.error PyErr.indexError
  | Json.obj _ => Except.error PyErr.keyError
  | _ => Except.error PyErr.typeError

/-- Substring containment on character lists: Python's `pat in hay` for
strings, checked at every suffix of the haystack. -/
def substrIn (hay pat : List Char) : Bool :=
  match hay with
  | [] => pat.isEmpty
  | _ :: t => pat.isPrefixOf hay || substrIn t pat

/-- Python `pat in s` on strings. -/
def pyInStr (pat s : String) : Bool := substrIn s.data pat.data

/-- Python `s.endswith(suf)`. -/
def pyEndsWith (s suf : String) : Bool := suf.data.reverse.isPrefixOf s.data.reverse

/-- Python `key in x` for classification: key membership for dicts, element
membership for lists, substring test for strings, `TypeError` otherwise. -/
def pyContainsKey (j : Json) (key : String) : Except PyErr Bool :=
  match j with
  | Json.obj fields => Except.ok ((jlookup fields key).isSome)
  | Json.arr xs => Except.ok (xs.contains (Json.str key))
  | Json.str s => Except.ok (pyInStr key s)
  | _ => Except.error PyErr.typeError

/-- Python `s.split(sep)` for a one-character separator: always returns at
least one (possibly empty) piece. -/
def splitOnChar (sep : Char) : List Char → List (List Char)
  | [] => [[]]
  | c :: t =>
      if c = sep then [] :: splitOnChar sep t
      else
        match splitOnChar sep t with
        | [] => [[c]]
        | h :: r => (c :: h) :: r

/-- The first path segment of a slash-delimited topic:
Python `topic.split('/')[0]`. -/
def firstSegment (topic : String) : String :=
  String.mk ((splitOnChar '/' topic.data).headD [])

/-- JSON whitespace skipping, as accepted by Python's `json.loads`. -/
def skipWs : List Char → List Char
  | [] => []
  | c :: r => if c = ' ' ∨ c = '\t' ∨ c = '\n' ∨ c = '\r' then skipWs r else c :: r

/-- Decimal digit test. -/
def isDigit (c : Char) : Bool := decide ('0' ≤ c ∧ c ≤ '9')

/-- Hexadecimal digit value. -/
def hexVal (c : Char) : Option Nat :=
  if isDigit c then some (c.toNat - '0'.toNat)
  else if decide ('a' ≤ c ∧ c ≤ 'f') then some (c.toNat - 'a'.toNat + 10)
  else if decide ('A' ≤ c ∧ c ≤ 'F') then some (c.toNat - 'A'.toNat + 10)
  else none

/-- Body of a JSON string literal after the opening quote: characters up to
the closing quote, processing the escape sequences `json.loads` accepts. -/
def parseStringBody : List Char → Option (List Char × List Char)
  | [] => none
  | '"' :: r => some ([], r)
  | '\\' :: 'u' :: h1 :: h2 :: h3 :: h4 :: r =>
      match hexVal h1, hexVal h2, hexVal h3, hexVal h4 with
      | some a, some b, some c, some d =>
          match parseStringBody r with
          | some (cs, rest) => some (Char.ofNat (((a * 16 + b) * 16 + c) * 16 + d) :: cs, rest)
          | none => none
      | _, _, _, _ => none
  | '\\' :: e :: r =>
      match
        (if e = '"' then some '"'
         else if e = '\\' then some '\\'
         else if e = '/' then some '/'
         else if e = 'b' then some (Char.ofNat 8)
         else if e = 'f' then some (Char.ofNat 12)
         else if e = 'n' then some '\n'
         else if e = 'r' then some '\r'
         else if e = 't' then some '\t'
         else none) with
      | some c =>
          match parseStringBody r with
          | some (cs, rest) => some (c :: cs, rest)
          | none => none
      | none => none
  | c :: r =>
      match parseStringBody r with
      | some (cs, rest) => some (c :: cs, rest)
      | none => none

/-- Maximal run of decimal digits at the head of the input. -/
def takeDigits : List Char → List Char × List Char
  | [] => ([], [])
  | c :: r =>
      if isDigit c then
        let (d, rest) := takeDigits r
        (c :: d, rest)
      else ([], c :: r)

/-- Lexeme of a JSON number: optional minus, integer digits, optional
fraction, optional exponent. Returns the lexeme and the rest. -/
def parseNumLex (s : List Char) : Option (List Char × List Char) :=
  let (sign, s1) :=
    match s with
    | '-' :: r => (['-'], r)
    | _ => (([] : List Char), s)
  let (intPart, s2) := takeDigits s1
  if intPart.isEmpty then none
  else
    let (fracPart, s3) :=
      match s2 with
      | '.' :: r =>
          let (d, rest) := takeDigits r
          if d.isEmpty then (([] : List Char), s2) else ('.' :: d, rest)
      | _ => (([] : List Char), s2)
    let (expPart, s4) :=
      match s3 with
      | e :: r =>
          if e = 'e' ∨ e = 'E' then
            let (esign, r1) :=
              match r with
              | '+' :: r2 => (['+'], r2)
              | '-' :: r2 => (['-'], r2)
              | _ => (([] : List Char), r)
            let (d, rest) := takeDigits r1
            if d.isEmpty then (([] : List Char), s3) else (e :: (esign ++ d), rest)
          else (([] : List Char), s3)
      | _ => (([] : List Char), s3)
    some (sign ++ intPart ++ fracPart ++ expPart, s4)

/-- Python dict construction from parsed key/value pairs in source order: a
duplicate key overwrites the earlier value in place, never duplicates. -/
def dictSet (acc : List (String × Json)) (k : String) (v : Json) : List (String × Json) :=
  match acc with
  | [] => [(k, v)]
  | (k1, v1) :: rest => if k1 = k then (k1, v) :: rest else (k1, v1) :: dictSet rest k v

/-- Fold parsed object pairs into dict semantics. -/
def dictOfPairs (pairs : List (String × Json)) : List (String × Json) :=
  pairs.foldl (fun acc kv => dictSet acc kv.1 kv.2) []

mutual

/-- Recursive-descent JSON value parser (fuelled), modelling `json.loads`. -/
def parseVal : Nat → List Char → Option (Json × List Char)
  | 0, _ => none
  | fuel + 1, s =>
      match skipWs s with
      | 'n' :: 'u' :: 'l' :: 'l' :: r => some (Json.null, r)
      | 't' :: 'r' :: 'u' :: 'e' :: r => some (Json.bool true, r)
      | 'f' :: 'a' :: 'l' :: 's' :: 'e' :: r => some (Json.bool false, r)
      | '"' :: r =>
          match parseStringBody r with
          | some (cs, rest) => some (Json.str (String.mk cs), rest)
          | none => none
      | '[' :: r =>
          match skipWs r with
          | ']' :: rest => some (Json.arr [], rest)
          | r1 =>
              match parseArrItems fuel r1 with
              | some (xs, rest) => some (Json.arr xs, rest)
              | none => none
      | '\x7b' :: r =>
          match skipWs r with
          | '\x7d' :: rest => some (Json.obj [], rest)
          | r1 =>
              match parseObjItems fuel r1 with
              | some (fs, rest) => some (Json.obj (dictOfPairs fs), rest)
              | none => none
      | c :: r =>
          if c = '-' ∨ isDigit c then
            match parseNumLex (c :: r) with
            | some (lex, rest) => some (Json.num (String.mk lex), rest)
            | none => none
          else none
      | [] => none

/-- One or more comma-separated array items up to the closing bracket. -/
def parseArrItems : Nat → List Char → Option (List Json × List Char)
  | 0, _ => none
  | fuel + 1, s =>
      match parseVal fuel s with
      | none => none
      | some (j, rest) =>
          match skipWs rest with
          | ',' :: r2 =>
              match parseArrItems fuel r2 with
              | some (xs, rest2) => some (j :: xs, rest2)
              | none => none
          | ']' :: r2 => some ([j], r2)
          | _ => none

/-- One or more comma-separated `"key": value` pairs up to the closing
brace. -/
def parseObjItems : Nat → List Char → Option (List (String × Json) × List Char)
  | 0, _ => none
  | fuel + 1, s =>
      match skipWs s with
      | '"' :: r =>
          match parseStringBody r with
          | none => none
          | some (kcs, rest) =>
              match skipWs rest with
              | ':' :: r2 =>
                  match parseVal fuel r2 with
                  | none => none
                  | some (v, rest2) =>
                      match skipWs rest2 with
                      | ',' :: r3 =>
                          match parseObjItems fuel r3 with
                          | some (fs, rest3) => some ((String.mk kcs, v) :: fs, rest3)
                          | none => none
                      | '\x7d' :: r3 => some ([(String.mk kcs, v)], r3)
                      | _ => none
              | _ => none
      | _ => none

end

/-- Python `json.loads`: parse one JSON document and require only trailing
whitespace after it; `none` models a raised `json.JSONDecodeError`. -/
def json_loads (p : String) : Option Json :=
  match parseVal (2 * p.data.length + 2) p.data with
  | some (j, rest) => if (skipWs rest).isEmpty then some j else none
  | none => none

/-- Strict UTF-8 decoding of a byte list into Unicode code points, as done
by Python's `bytes.decode("utf-8")`: rejects bad lead bytes, truncated or
bad continuation bytes, overlong encodings, surrogates and values beyond
U+10FFFF; `none` models a raised `UnicodeDecodeError`. -/
def utf8Decode : List Nat → Option (List Nat)
  | [] => some []
  | b :: rest =>
      if b < 128 then (utf8Decode rest).map (b :: ·)
      else if b < 194 then none
      else if b < 224 then
        match rest with
        | b1 :: r =>
            if decide (128 ≤ b1 ∧ b1 < 192) then
              (utf8Decode r).map (((b - 192) * 64 + (b1 - 128)) :: ·)
            else none
        | [] => none
      else if b < 240 then
        match rest with
        | b1 :: b2 :: r =>
            if decide (128 ≤ b1 ∧ b1 < 192) && decide (128 ≤ b2 ∧ b2 < 192)
                && (decide (b ≠ 224) || decide (160 ≤ b1))
                && (decide (b ≠ 237) || decide (b1 < 160)) then
              (utf8Decode r).map (((b - 224) * 4096 + (b1 - 128) * 64 + (b2 - 128)) :: ·)
            else none
        | _ => none
      else if b < 245 then
        match rest with
        | b1 :: b2 :: b3 :: r =>
            if decide (128 ≤ b1 ∧ b1 < 192) && decide (128 ≤ b2 ∧ b2 < 192)
                && decide (128 ≤ b3 ∧ b3 < 192)
                && (decide (b ≠ 240) || decide (144 ≤ b1))
                && (decide (b ≠ 244) || decide (b1 < 144)) then
              (utf8Decode r).map
                (((b - 240) * 262144 + (b1 - 128) * 4096 + (b2 - 128) * 64 + (b3 - 128)) :: ·)
            else none
        | _ => none
      else none

/-- `bytes.decode("utf-8")` producing a Lean string on success. -/
def utf8ToString (bytes : List Nat) : Option String :=
  (utf8Decode bytes).map (fun cps => String.mk (cps.map Char.ofNat))

/-- The five inter-stage queues of the ingestor (`discovery_queue`,
`entity_queue`, `status_queue`, `state_queue`, `command_queue`): discovery
and entity items are parsed JSON dicts, the other three hold
`(topic, payload)` string pairs. The same shape also holds the writer's
per-variant batch lists. -/
structure Queues where
  discovery : List Json
  entity : List Json
  status : List (String × String)
  state : List (String × String)
  command : List (String × String)
  deriving Repr, DecidableEq

/-- The writer thread's batch lists share the queues' shape. -/
abbrev Batches := Queues

/-- All queues empty. -/
def emptyQueues : Queues :=
  { discovery := [], entity := [], status := [], state := [], command := [] }

/-- Routing body of `on_mqtt_message` after the payload has been decoded to
text (ingestor.py lines 260-272): the `if/elif` chain in source order, with
`json.JSONDecodeError` and any other exception caught by the surrounding
handlers so that nothing is enqueued on those paths. -/
def routeDecoded (topic payload_str : String) (q : Queues) : Queues :=
  if pyInStr "esphome/discover" topic then
    match json_loads payload_str with
    | some j => { q with discovery := q.discovery ++ [j] }
    | none => q
  else if pyInStr "homeassistant" topic && pyEndsWith topic "/config" then
    match json_loads payload_str with
    | none => q
    | some entity_data =>
        match pyContainsKey entity_data "device" with
        | Except.error _ => q
        | Except.ok false => q
        | Except.ok true =>
            match pySubscript entity_data "device" with
            | Except.error _ => q
            | Except.ok dev =>
                match pyContainsKey dev "identifiers" with
                | Except.error _ => q
                | Except.ok false => q
                | Except.ok true => { q with entity := q.entity ++ [entity_data] }
  else if pyEndsWith topic "/status" then
    { q with status := q.status ++ [(topic, payload_str)] }
  else if pyEndsWith topic "/state" then
    { q with state := q.state ++ [(topic, payload_str)] }
  else if pyEndsWith topic "/command" then
    { q with command := q.command ++ [(topic, payload_str)] }
  else q

/-- `on_mqtt_message` (ingestor.py lines 254-277): the raw payload bytes are
decoded as UTF-8 first; a `UnicodeDecodeError` is caught by the generic
handler, so nothing is enqueued for undecodable payloads. -/
def on_mqtt_message (topic : String) (payload : List Nat) (q : Queues) : Queues :=
  match utf8ToString payload with
  | none => q
  | some payload_str => routeDecoded topic payload_str q

/-- A row of `discovery_data` (column set from `setup_database_tables` and
the INSERT at ingestor.py lines 180-183). -/
structure DiscoveryRow where
  time : Nat
  device_name : Json
  ip_address : Option Json
  mac_address : Option Json
  version : Option Json
  platform : Option Json
  board : Option Json
  network : Option Json
  raw_payload : Json
  deriving Repr, DecidableEq

/-- A row of `entity` (INSERT at ingestor.py lines 188-190). -/
structure EntityRow where
  time : Nat
  unique_id : Json
  device_name : Json
  component_type : Json
  name : Json
  state_topic : Option Json
  command_topic : Option Json
  raw_payload : Json
  deriving Repr, DecidableEq

/-- A row of `device_status` (INSERT at ingestor.py lines 196-198). -/
structure StatusRow where
  time : Nat
  device_name : String
  status : String
  raw_payload : Json
  deriving Repr, DecidableEq

/-- A row of `command` (table created at ingestor.py line 140; the writer
never inserts into it). -/
structure CommandRow where
  time : Nat
  device_id : String
  component_id : String
  command : String
  raw_payload : Json
  deriving Repr, DecidableEq

/-- A row of a per-device state table `esphome_<name>` (CREATE TABLE at
ingestor.py line 217): the `value` column is TEXT and receives the raw
payload text unchanged (line 213). -/
structure StateRow where
  time : Nat
  topic : String
  value : String
  raw_payload : Json
  deriving Repr, DecidableEq

/-- The database: the four fixed tables, the per-device state tables keyed
by table name, and the set of names registered as hypertables. -/
structure DB where
  discovery_data : List DiscoveryRow
  entity : List EntityRow
  device_status : List StatusRow
  command : List CommandRow
  deviceTables : List (String × List StateRow)
  hypertables : List String
  deriving Repr, DecidableEq

/-- An empty database (fixed tables provisioned, no rows). -/
def dbEmpty : DB :=
  { discovery_data := [], entity := [], device_status := [], command := [],
    deviceTables := [], hypertables := [] }

/-- Discovery row construction, one element of the list comprehension at
ingestor.py line 182: `d['name']` raises for a missing key or a non-dict,
the `d.get(...)` fields never raise on a dict. -/
def discoveryRow (t : Nat) (d : Json) : Except PyErr DiscoveryRow := do
  let name ← pySubscript d "name"
  pure { time := t, device_name := name, ip_address := pyGet d "ip",
         mac_address := pyGet d "mac", version := pyGet d "version",
         platform := pyGet d "platform", board := pyGet d "board",
         network := pyGet d "network", raw_payload := d }

/-- Entity row construction, one element of the list comprehension at
ingestor.py line 190, with Python's left-to-right evaluation order:
`e['unique_id']`, `e['device']['identifiers'][0]`, `e['component']` may
raise; `e.get('name', 'N/A')` defaults. -/
def entityRow (t : Nat) (e : Json) : Except PyErr EntityRow := do
  let uid ← pySubscript e "unique_id"
  let dev ← pySubscript e "device"
  let ids ← pySubscript dev "identifiers"
  let dname ← pyIndexZero ids
  let comp ← pySubscript e "component"
  pure { time := t, unique_id := uid, device_name := dname,
         component_type := comp, name := (pyGet e "name").getD (Json.str "N/A"),
         state_topic := pyGet e "state_topic",
         command_topic := pyGet e "command_topic", raw_payload := e }

/-- Status row construction (ingestor.py line 198): device name is the
topic's first segment, payload stored as opaque text. -/
def statusRow (t : Nat) (m : String × String) : StatusRow :=
  { time := t, device_name := firstSegment m.1, status := m.2,
    raw_payload := Json.obj [("topic", Json.str m.1), ("payload", Json.str m.2)] }

/-- State row construction (ingestor.py line 213): the raw payload text goes
into the TEXT `value` column unchanged. -/
def stateRow (t : Nat) (m : String × String) : StateRow :=
  { time := t, topic := m.1, value := m.2,
    raw_payload := Json.obj [("topic", Json.str m.1), ("payload", Json.str m.2)] }

/-- Device table naming (ingestor.py line 210):
`f"esphome_{device_name.replace('-', '_')}"` — only hyphens are replaced. -/
def tableNameOf (device_name : String) : String :=
  "esphome_" ++ String.mk (device_name.data.map (fun c => if c = '-' then '_' else c))

/-- Append a state row to its table's group, keeping first-seen group
order (the `states_by_table` dict at ingestor.py lines 206-213). -/
def addToGroup : List (String × List StateRow) → String → StateRow → List (String × List StateRow)
  | [], tbl, r => [(tbl, [r])]
  | (k, rs) :: rest, tbl, r =>
      if k = tbl then (k, rs ++ [r]) :: rest
      else (k, rs) :: addToGroup rest tbl r

/-- Group a state batch by device table name in batch order. -/
def groupStates (t : Nat) (batch : List (String × String)) : List (String × List StateRow) :=
  batch.foldl (fun acc m => addToGroup acc (tableNameOf (firstSegment m.1)) (stateRow t m)) []

/-- `INSERT ... ON CONFLICT (key) DO UPDATE SET <all fields> = EXCLUDED...`
applied to one row: replace the row with the matching key in place, else
append. -/
def upsertByKey {α : Type} (key : α → Json) : List α → α → List α
  | [], r => [r]
  | x :: rest, r =>
      if key x = key r then r :: rest
      else x :: upsertByKey key rest r

/-- `CREATE TABLE IF NOT EXISTS <tbl>` for a device table
(ingestor.py line 217). -/
def ensureTable (db : DB) (tbl : String) : DB :=
  if (db.deviceTables.lookup tbl).isSome then db
  else { db with deviceTables := db.deviceTables ++ [(tbl, [])] }

/-- `SELECT create_hypertable(<tbl>, 'time', if_not_exists => TRUE)`
(ingestor.py line 218). -/
def ensureHypertable (db : DB) (tbl : String) : DB :=
  if tbl ∈ db.hypertables then db
  else { db with hypertables := db.hypertables ++ [tbl] }

/-- Append rows to an existing device table. -/
def appendTableRows : List (String × List StateRow) → String → List StateRow → List (String × List StateRow)
  | [], tbl, vals => [(tbl, vals)]
  | (k, rs) :: rest, tbl, vals =>
      if k = tbl then (k, rs ++ vals) :: rest
      else (k, rs) :: appendTableRows rest tbl vals

/-- Outcome of the flush body: either all blocks ran (ready to commit) or an
exception escaped, carrying the transaction and batch lists as they stand at
the raise point. -/
inductive FlushOut where
  | ok : DB → Batches → FlushOut
  | err : PyErr → DB → Batches → FlushOut
  deriving Repr, DecidableEq

/-- Discovery block (ingestor.py lines 179-185): build all rows (the list
comprehension raises before anything executes), bulk upsert, then clear the
batch — the clear happens inside the transaction, before any commit. -/
def flushDiscovery (t : Nat) (db : DB) (b : Batches) : FlushOut :=
  if b.discovery.isEmpty then FlushOut.ok db b
  else
    match b.discovery.mapM (discoveryRow t) with
    | Except.error e => FlushOut.err e db b
    | Except.ok rows =>
        FlushOut.ok
          { db with discovery_data :=
              rows.foldl (upsertByKey DiscoveryRow.device_name) db.discovery_data }
          { b with discovery := [] }

/-- Entity block (ingestor.py lines 187-193), same shape as the discovery
block with the `unique_id` conflict key. -/
def flushEntity (t : Nat) (db : DB) (b : Batches) : FlushOut :=
  if b.entity.isEmpty then FlushOut.ok db b
  else
    match b.entity.mapM (entityRow t) with
    | Except.error e => FlushOut.err e db b
    | Except.ok rows =>
        FlushOut.ok
          { db with entity := rows.foldl (upsertByKey EntityRow.unique_id) db.entity }
          { b with entity := [] }

/-- Status block (ingestor.py lines 195-201): plain insert, then clear. -/
def flushStatus (t : Nat) (db : DB) (b : Batches) : DB × Batches :=
  if b.status.isEmpty then (db, b)
  else
    ({ db with device_status := db.device_status ++ b.status.map (statusRow t) },
     { b with status := [] })

/-- State block (ingestor.py lines 204-225): group by device table, ensure
table and hypertable per group, bulk insert per table, then clear. -/
def flushState (t : Nat) (db : DB) (b : Batches) : DB × Batches :=
  if b.state.isEmpty then (db, b)
  else
    let db2 := (groupStates t b.state).foldl
      (fun d g =>
        let d1 := ensureHypertable (ensureTable d g.1) g.1
        { d1 with deviceTables := appendTableRows d1.deviceTables g.1 g.2 }) db
    (db2, { b with state := [] })

/-- The flush body of one tick (ingestor.py lines 178-228): discovery,
entity, status, state blocks in source order — there is no command block, so
the command batch is neither written nor cleared. A raise propagates with the
transaction and batches as they stand. -/
def flushBody (t : Nat) (db0 : DB) (b0 : Batches) : FlushOut :=
  match flushDiscovery t db0 b0 with
  | FlushOut.err e db b => FlushOut.err e db b
  | FlushOut.ok db1 b1 =>
      match flushEntity t db1 b1 with
      | FlushOut.err e db b => FlushOut.err e db b
      | FlushOut.ok db2 b2 =>
          let (db3, b3) := flushStatus t db2 b2
          let (db4, b4) := flushState t db3 b3
          FlushOut.ok db4 b4

/-- Error classes distinguished by the writer loop's two `except` clauses. -/
inductive ErrClass where
  | dbError : ErrClass
  | other : ErrClass
  deriving Repr, DecidableEq

/-- The writer loop's exception handlers (ingestor.py lines 230-237), given
the connection flag, the pending transaction and the committed database:
`psycopg2.Error` closes the connection (rolling back the pending
transaction) and clears it to `None`; any other exception only logs and
sleeps, leaving the connection and its pending transaction untouched. Both
sleep 5 seconds and neither terminates the loop. -/
def exceptHandler (connOpen : Bool) (txn committed : DB) (e : ErrClass) :
    Bool × DB × Nat :=
  match e with
  | ErrClass.dbError => (false, committed, 5)
  | ErrClass.other => (connOpen, txn, 5)

/-- State of the writer thread: connection flag, committed database, the
connection's uncommitted transaction view, the batch lists, and the tick
counter standing in for wall-clock time. -/
structure WriterState where
  connOpen : Bool
  committed : DB
  txn : DB
  batches : Batches
  tick : Nat
  deriving Repr, DecidableEq

/-- One iteration of the `db_writer_thread` loop (ingestor.py lines
158-237), with the database reachable: (re)connect if needed (a fresh
connection's transaction view is the committed database), run the flush
body, commit on success; a raise from the body goes to the matching
handler — row-construction errors are Python `KeyError`/`TypeError`/
`IndexError`, which take the generic branch. Queue draining is not
re-modelled here: claims put drained items directly into `batches`. -/
def writerIter (st : WriterState) : WriterState :=
  let st1 :=
    if st.connOpen then st
    else { st with connOpen := true, txn := st.committed }
  match flushBody st1.tick st1.txn st1.batches with
  | FlushOut.ok db b =>
      { st1 with txn := db, committed := db, batches := b, tick := st1.tick + 1 }
  | FlushOut.err _ db b =>
      let h := exceptHandler st1.connOpen db st1.committed ErrClass.other
      { st1 with connOpen := h.1, txn := h.2.1, batches := b, tick := st1.tick + 1 }

/-- Iterate the writer loop `n` times. -/
def writerRun : Nat → WriterState → WriterState
  | 0, st => st
  | n + 1, st => writerRun n (writerIter st)

/-- Result of the `start` command's control flow. -/
inductive StartResult where
  | abortedNoConfig : StartResult
  | stoppedAfterMqttError : StartResult
  | ranUntilStop : StartResult
  deriving Repr, DecidableEq

/-- Control flow of the `start` command (ingestor.py lines 279-321): a
missing configuration file aborts; otherwise the writer thread starts and
the initial `mqtt_client.connect` runs inside `try` — an exception from it
is logged by `except Exception` and the `finally` block sets the stop event,
joins the writer and returns, ending the service; on success the main loop
runs until the stop event. -/
def start (configExists : Bool) (mqttConnectOk : Bool) : StartResult :=
  if !configExists then StartResult.abortedNoConfig
  else if !mqttConnectOk then StartResult.stoppedAfterMqttError
  else StartResult.ranUntilStop

/-- One iteration of the writer loop during a database outage that makes
`conn.commit()` (ingestor.py line 228) raise `psycopg2.Error` after the
flush body ran: the handler at lines 230-234 closes the connection, which
rolls the uncommitted transaction back, and sets it to `None` — but the
batch lists stand exactly as the flush body left them, clears included. -/
def writerIterDbFail (st : WriterState) : WriterState :=
  let st1 :=
    if st.connOpen then st
    else { st with connOpen := true, txn := st.committed }
  match flushBody st1.tick st1.txn st1.batches with
  | FlushOut.ok db b =>
      let h := exceptHandler st1.connOpen db st1.committed ErrClass.dbError
      { st1 with connOpen := h.1, txn := h.2.1, batches := b, tick := st1.tick + 1 }
  | FlushOut.err _ db b =>
      let h := exceptHandler st1.connOpen db st1.committed ErrClass.other
      { st1 with connOpen := h.1, txn := h.2.1, batches := b, tick := st1.tick + 1 }

/-- ASCII alphanumeric test, for stating the sanitization claim. -/
def isAlnumChar (c : Char) : Bool :=
  decide (('a' ≤ c ∧ c ≤ 'z') ∨ ('A' ≤ c ∧ c ≤ 'Z') ∨ ('0' ≤ c ∧ c ≤ '9'))

/-- An entity-config payload that passes classification (it has the nested
`device.identifiers` field, the only thing `on_mqtt_message` checks) but has
no `unique_id` and no `component`, so flush-time row construction raises. -/
def badEntityPayload : Json :=
  Json.obj [("device", Json.obj [("identifiers", Json.arr [Json.str "x"])])]

/-- The wire text of `badEntityPayload`. -/
def badEntityText : String := "\x7b\"device\": \x7b\"identifiers\": [\"x\"]\x7d\x7d"

/-- A well-formed discovery payload. -/
def goodDiscoveryPayload : Json := Json.obj [("name", Json.str "dev1")]

/-- Writer state with one message of every variant drained into its batch:
a valid discovery payload, the classification-accepted but unpersistable
entity payload, and one status, state and command pair each. -/
def stMixed : WriterState :=
  { connOpen := true, committed := dbEmpty, txn := dbEmpty,
    batches := { discovery := [goodDiscoveryPayload], entity := [badEntityPayload],
                 status := [("d/status", "online")], state := [("d/s/x/state", "1")],
                 command := [("d/c/x/command", "GO")] },
    tick := 0 }

/-- Writer state with one valid message of every variant in its batch. -/
def stAllGood : WriterState :=
  { connOpen := true, committed := dbEmpty, txn := dbEmpty,
    batches := { discovery := [goodDiscoveryPayload], entity := [],
                 status := [("d/status", "online")], state := [("d/s/x/state", "1")],
                 command := [("d/c/x/command", "GO")] },
    tick := 0 }

/-- Writer state with only the unpersistable entity payload batched. -/
def stBadEntity : WriterState :=
  { connOpen := true, committed := dbEmpty, txn := dbEmpty,
    batches := { emptyQueues with entity := [badEntityPayload] }, tick := 0 }

/-- Writer state with one command message batched and nothing else. -/
def stCommandOnly : WriterState :=
  { connOpen := true, committed := dbEmpty, txn := dbEmpty,
    batches := { emptyQueues with command := [("mydevice/light/bulb/command", "TOGGLE")] },
    tick := 0 }

/-- Writer state with the spec's end-to-end state example batched. -/
def stKitchen : WriterState :=
  { connOpen := true, committed := dbEmpty, txn := dbEmpty,
    batches := { emptyQueues with state := [("kitchen/switch/fan/state", "ON")] },
    tick := 7 }

/-- A concrete discovery row (first ingest of device `dev1`). -/
def rowD1 : DiscoveryRow :=
  { time := 0, device_name := Json.str "dev1",
    ip_address := some (Json.str "10.0.0.1"), mac_address := none,
    version := none, platform := none, board := none, network := none,
    raw_payload := Json.null }

/-- A concrete discovery row for the same device with different fields. -/
def rowD2 : DiscoveryRow :=
  { time := 1, device_name := Json.str "dev1",
    ip_address := some (Json.str "10.0.0.2"), mac_address := none,
    version := some (Json.str "2024.1"), platform := none, board := none,
    network := none, raw_payload := Json.null }

/-- A concrete entity row (first ingest of `uid1`). -/
def rowE1 : EntityRow :=
  { time := 0, unique_id := Json.str "uid1", device_name := Json.str "dev1",
    component_type := Json.str "light", name := Json.str "Old",
    state_topic := none, command_topic := none, raw_payload := Json.null }

/-- A concrete entity row for the same unique id with different fields. -/
def rowE2 : EntityRow :=
  { time := 1, unique_id := Json.str "uid1", device_name := Json.str "dev1",
    component_type := Json.str "light", name := Json.str "New",
    state_topic := none, command_topic := none, raw_payload := Json.null }

/-- The row `discoveryRow 0` builds from `goodDiscoveryPayload`. -/
def rowG : DiscoveryRow :=
  { time := 0, device_name := Json.str "dev1",
    ip_address := none, mac_address := none, version := none,
    platform := none, board := none, network := none,
    raw_payload := goodDiscoveryPayload }

/-! ## Helper lemmas -/

theorem writerIter_commandOnly (t : Nat) :
    writerIter { stCommandOnly with tick := t } = { stCommandOnly with tick := t + 1 } := rfl

theorem writerRun_commandOnly (n : Nat) :
    ∀ (t : Nat), writerRun n { stCommandOnly with tick := t }
      = { stCommandOnly with tick := t + n } := by
  induction n with
  | zero => intro t; rfl
  | succ n ih =>
      intro t
      show writerRun n (writerIter { stCommandOnly with tick := t }) = _
      rw [writerIter_commandOnly t, ih (t + 1)]
      have : t + 1 + n = t + (n + 1) := by omega
      rw [this]

theorem writerIter_badEntity (t : Nat) :
    writerIter { stBadEntity with tick := t } = { stBadEntity with tick := t + 1 } := rfl

theorem writerRun_badEntity (n : Nat) :
    ∀ (t : Nat), writerRun n { stBadEntity with tick := t }
      = { stBadEntity with tick := t + n } := by
  induction n with
  | zero => intro t; rfl
  | succ n ih =>
      intro t
      show writerRun n (writerIter { stBadEntity with tick := t }) = _
      rw [writerIter_badEntity t, ih (t + 1)]
      have : t + 1 + n = t + (n + 1) := by omega
      rw [this]

theorem upsertByKey_fresh {α : Type} (key : α → Json) (T : List α) (r : α)
    (h : ∀ x ∈ T, key x ≠ key r) : upsertByKey key T r = T ++ [r] := by
  induction T with
  | nil => rfl
  | cons x rest ih =>
      simp only [upsertByKey]
      rw [if_neg (h x (List.mem_cons_self x rest)),
        ih (fun y hy => h y (List.mem_cons_of_mem x hy))]
      rfl

theorem upsertByKey_hit_after {α : Type} (key : α → Json) (T : List α) (r1 r2 : α)
    (hk : key r1 = key r2) (h : ∀ x ∈ T, key x ≠ key r2) :
    upsertByKey key (T ++ [r1]) r2 = T ++ [r2] := by
  induction T with
  | nil => simp [upsertByKey, hk]
  | cons x rest ih =>
      simp only [List.cons_append, upsertByKey]
      rw [if_neg (fun hx => h x (List.mem_cons_self x rest) hx)]
      rw [show rest.append [r1] = rest ++ [r1] from rfl,
        ih (fun y hy => h y (List.mem_cons_of_mem x hy))]

theorem filter_key_append_single {α : Type} (key : α → Json) (T : List α) (r2 : α)
    (h : ∀ x ∈ T, key x ≠ key r2) :
    (T ++ [r2]).filter (fun x => decide (key x = key r2)) = [r2] := by
  induction T with
  | nil => simp [List.filter]
  | cons x rest ih =>
      simp only [List.cons_append, List.filter]
      rw [decide_eq_false (h x (List.mem_cons_self x rest))]
      exact ih (fun y hy => h y (List.mem_cons_of_mem x hy))

theorem mem_ensureHypertable (db : DB) (tbl : String) :
    tbl ∈ (ensureHypertable db tbl).hypertables := by
  unfold ensureHypertable
  by_cases h : tbl ∈ db.hypertables
  · simp [h]
  · simp [h]

/-! ## Claim theorems -/

/-- Claim C4, counterexample: a failure of the initial broker connection
attempt does terminate the service — `start` with a readable configuration
and a failing initial connect ends in the stopped state, not the running
one. -/
theorem claim_C4_counterexample :
    start true false = StartResult.stoppedAfterMqttError := rfl

/-- Claim C4, amended: the service keeps running exactly when the persisted
configuration is readable and the initial broker connection attempt
succeeds; a missing configuration aborts, and an initial-connect failure is
caught, logged, and terminates the service via the `finally` block (later
broker errors are left to the MQTT client's own loop). -/
theorem claim_C4 : ∀ (configExists mqttConnectOk : Bool),
    start configExists mqttConnectOk = StartResult.ranUntilStop
      ↔ (configExists = true ∧ mqttConnectOk = true) := by decide

/-- Claim C5, counterexample: an unexpected (non-database) exception in the
flush cycle is not treated identically to a database error — the generic
handler keeps the connection open while the database-error handler drops
it. -/
theorem claim_C5_counterexample :
    (exceptHandler true dbEmpty dbEmpty ErrClass.other).1 = true
    ∧ (exceptHandler true dbEmpty dbEmpty ErrClass.dbError).1 = false := ⟨rfl, rfl⟩

/-- Claim C5, amended: an unexpected exception anywhere in the flush body is
contained — the loop logs, sleeps the cooldown, increments the tick and
retries with the committed database untouched, and no error terminates the
loop — but unlike a database error it does not transition to Disconnected:
the connection flag and the committed state are preserved and the pending
transaction is kept rather than rolled back. -/
theorem claim_C5 : ∀ (st : WriterState) (e : PyErr) (db : DB) (b : Batches),
    st.connOpen = true →
    flushBody st.tick st.txn st.batches = FlushOut.err e db b →
    writerIter st = { st with txn := db, batches := b, tick := st.tick + 1 } := by
  intro st e db b h1 h2
  simp [writerIter, h1, h2, exceptHandler]

/-- Witness for claim C5's amended theorem at the unpersistable entity
batch. -/
theorem claim_C5_witness :
    writerIter stBadEntity
      = { stBadEntity with txn := dbEmpty, batches := { emptyQueues with entity := [badEntityPayload] }, tick := 1 } :=
  claim_C5 stBadEntity PyErr.keyError dbEmpty
    { emptyQueues with entity := [badEntityPayload] } rfl rfl

/-- Claim C10: a payload whose bytes are not valid UTF-8 is discarded by
`on_mqtt_message` before any routing rule runs — no queue receives
anything, whatever the topic. -/
theorem claim_C10 : ∀ (topic : String) (payload : List Nat) (q : Queues),
    utf8Decode payload = none → on_mqtt_message topic payload q = q := by
  intro topic payload q h
  simp [on_mqtt_message, utf8ToString, h]

/-- Witness for claim C10: the lone byte 255 is invalid UTF-8 and is
discarded even on a state topic. -/
theorem claim_C10_witness :
    utf8Decode [255] = none
    ∧ on_mqtt_message "mydevice/switch/light/state" [255] emptyQueues = emptyQueues :=
  ⟨rfl, claim_C10 "mydevice/switch/light/state" [255] emptyQueues rfl⟩

/-- Claim C1 is violated by the code: each batch is cleared right after its
own bulk write, inside the transaction and before `conn.commit()`. First
part: a raise in the entity block (after the discovery block ran) leaves the
tick failed with nothing committed, yet the discovery batch is already
cleared while the later batches are retained — a partial clear, and the
discovery message survives in no batch and in no committed table. Second
part: when the database fails at `conn.commit()` itself, the whole tick is
rolled back yet every flushed batch (all but the never-written command
batch) has been cleared — the retained-union property fails. -/
theorem claim_C1_bug :
    ((writerIter stMixed).committed = dbEmpty
      ∧ (writerIter stMixed).batches.discovery = []
      ∧ (writerIter stMixed).batches.entity = [badEntityPayload]
      ∧ (writerIter stMixed).batches.status = [("d/status", "online")]
      ∧ (writerIter stMixed).batches.state = [("d/s/x/state", "1")])
    ∧ ((writerIterDbFail stAllGood).committed = dbEmpty
      ∧ (writerIterDbFail stAllGood).batches
          = { emptyQueues with command := [("d/c/x/command", "GO")] }
      ∧ (writerIterDbFail stAllGood).connOpen = false) :=
  ⟨⟨rfl, rfl, rfl, rfl, rfl⟩, ⟨rfl, rfl, rfl⟩⟩

/-- Claim C2 is violated by the code: `db_writer_thread` drains the command
queue into `command_batch` but contains no insert into the `command` table
and never clears the batch — after any number of flush ticks the command
table is still empty and the message is still held in the batch, retained
forever without being persisted. -/
theorem claim_C2_bug : ∀ (n : Nat),
    (writerRun n stCommandOnly).committed.command = []
    ∧ (writerRun n stCommandOnly).batches.command
        = [("mydevice/light/bulb/command", "TOGGLE")] := by
  intro n
  have h : writerRun n stCommandOnly = { stCommandOnly with tick := 0 + n } :=
    writerRun_commandOnly n 0
  rw [h]
  exact ⟨rfl, rfl⟩

/-- Claim C3 is violated by the code: the state insert at ingestor.py line
213 stores the raw payload text in the TEXT `value` column with no
on/off-to-numeric coercion and no numeric field at all — payload `"ON"` on
topic `"kitchen/switch/fan/state"` is committed into `esphome_kitchen` with
`value` the string `"ON"`, not the number 1.0. -/
theorem claim_C3_bug :
    (writerIter stKitchen).committed.deviceTables
      = [("esphome_kitchen", [stateRow 7 ("kitchen/switch/fan/state", "ON")])]
    ∧ (stateRow 7 ("kitchen/switch/fan/state", "ON")).value = "ON"
    ∧ (writerIter stKitchen).committed.hypertables = ["esphome_kitchen"] :=
  ⟨rfl, rfl, rfl⟩

/-- Claim C9: the payload `\x7b"device": \x7b"identifiers": ["x"]\x7d\x7d`
passes classification (only the nested `device.identifiers` field is
checked) and is enqueued for the entity table, but flush-time row
construction reads `unique_id` first and raises `KeyError`; since the entity
batch is cleared only after a successful entity write, the message keeps the
entity batch blocked and nothing of it is ever committed, on every
subsequent tick. -/
theorem claim_C9 :
    routeDecoded "homeassistant/light/x/config" badEntityText emptyQueues
      = { emptyQueues with entity := [badEntityPayload] }
    ∧ (∀ (t : Nat), entityRow t badEntityPayload = Except.error PyErr.keyError)
    ∧ (∀ (n : Nat), (writerRun n stBadEntity).batches.entity = [badEntityPayload]
        ∧ (writerRun n stBadEntity).committed = dbEmpty) := by
  refine ⟨rfl, fun t => rfl, fun n => ?_⟩
  have h : writerRun n stBadEntity = { stBadEntity with tick := 0 + n } :=
    writerRun_badEntity n 0
  rw [h]
  exact ⟨rfl, rfl⟩

/-- Claim C7: the routing chain tests the discovery-announcement substring
first, so for any topic containing `esphome/discover` a JSON-parseable
payload is enqueued as a discovery message and nothing else changes (even
when the topic also ends in a status/state/command suffix), while a
non-parseable payload leaves every queue untouched. -/
theorem claim_C7 : ∀ (topic p : String) (q : Queues),
    pyInStr "esphome/discover" topic = true →
    (∀ (j : Json), json_loads p = some j →
        routeDecoded topic p q = { q with discovery := q.discovery ++ [j] })
    ∧ (json_loads p = none → routeDecoded topic p q = q) := by
  intro topic p q h
  constructor
  · intro j hj
    simp [routeDecoded, h, hj]
  · intro hj
    simp [routeDecoded, h, hj]

/-- Witness for claim C7 on a topic that contains the discovery substring
and also ends in `/state`: an empty JSON object is routed to the discovery
queue only, and a non-JSON payload is discarded. -/
theorem claim_C7_witness :
    (routeDecoded "esphome/discover/x/state" "\x7b\x7d" emptyQueues
      = { emptyQueues with discovery := emptyQueues.discovery ++ [Json.obj []] })
    ∧ routeDecoded "esphome/discover/x/state" "nope" emptyQueues = emptyQueues :=
  ⟨(claim_C7 "esphome/discover/x/state" "\x7b\x7d" emptyQueues rfl).1 (Json.obj []) rfl,
   (claim_C7 "esphome/discover/x/state" "nope" emptyQueues rfl).2 rfl⟩

/-- Claim C6: persisting discovery and entity metadata is an upsert keyed by
`device_name` resp. `unique_id` — re-ingesting a key already stored
overwrites all fields and the timestamp and never duplicates, so after two
ingests with the same key exactly one row with the second message's fields
holds that key; and the flush's discovery block applies exactly this upsert
to each batched payload's row. -/
theorem claim_C6 :
    (∀ (T : List DiscoveryRow) (r1 r2 : DiscoveryRow),
        r1.device_name = r2.device_name →
        (∀ x ∈ T, x.device_name ≠ r2.device_name) →
        (upsertByKey DiscoveryRow.device_name
            (upsertByKey DiscoveryRow.device_name T r1) r2).filter
            (fun x => decide (x.device_name = r2.device_name)) = [r2])
    ∧ (∀ (E : List EntityRow) (s1 s2 : EntityRow),
        s1.unique_id = s2.unique_id →
        (∀ x ∈ E, x.unique_id ≠ s2.unique_id) →
        (upsertByKey EntityRow.unique_id
            (upsertByKey EntityRow.unique_id E s1) s2).filter
            (fun x => decide (x.unique_id = s2.unique_id)) = [s2])
    ∧ (∀ (t : Nat) (d : Json) (r : DiscoveryRow) (db : DB) (b : Batches),
        discoveryRow t d = Except.ok r → b.discovery = [d] →
        flushDiscovery t db b
          = FlushOut.ok
              { db with discovery_data :=
                  upsertByKey DiscoveryRow.device_name db.discovery_data r }
              { b with discovery := [] }) := by
  refine ⟨?_, ?_, ?_⟩
  · intro T r1 r2 hk h
    have h1 : ∀ x ∈ T, x.device_name ≠ r1.device_name := by
      intro x hx
      rw [hk]
      exact h x hx
    rw [upsertByKey_fresh DiscoveryRow.device_name T r1 h1,
      upsertByKey_hit_after DiscoveryRow.device_name T r1 r2 hk h,
      filter_key_append_single DiscoveryRow.device_name T r2 h]
  · intro E s1 s2 hk h
    have h1 : ∀ x ∈ E, x.unique_id ≠ s1.unique_id := by
      intro x hx
      rw [hk]
      exact h x hx
    rw [upsertByKey_fresh EntityRow.unique_id E s1 h1,
      upsertByKey_hit_after EntityRow.unique_id E s1 s2 hk h,
      filter_key_append_single EntityRow.unique_id E s2 h]
  · intro t d r db b hrow hb
    simp [flushDiscovery, hb, hrow, List.mapM, List.mapM.loop, upsertByKey]

/-- Witness for claim C6 at concrete rows and the concrete discovery
payload. -/
theorem claim_C6_witness :
    ((upsertByKey DiscoveryRow.device_name
        (upsertByKey DiscoveryRow.device_name [] rowD1) rowD2).filter
        (fun x => decide (x.device_name = rowD2.device_name)) = [rowD2])
    ∧ ((upsertByKey EntityRow.unique_id
        (upsertByKey EntityRow.unique_id [] rowE1) rowE2).filter
        (fun x => decide (x.unique_id = rowE2.unique_id)) = [rowE2])
    ∧ flushDiscovery 0 dbEmpty { emptyQueues with discovery := [goodDiscoveryPayload] }
        = FlushOut.ok
            { dbEmpty with discovery_data :=
                upsertByKey DiscoveryRow.device_name dbEmpty.discovery_data rowG }
            { { emptyQueues with discovery := [goodDiscoveryPayload] } with discovery := [] } :=
  ⟨claim_C6.1 [] rowD1 rowD2 rfl (by simp),
   claim_C6.2.1 [] rowE1 rowE2 rfl (by simp),
   claim_C6.2.2 0 goodDiscoveryPayload rowG dbEmpty
     { emptyQueues with discovery := [goodDiscoveryPayload] } rfl rfl⟩

/-- Claim C8, counterexample: sanitization replaces only hyphens, so the
device name `dev.1` yields table name `esphome_dev.1`, which still contains
the non-alphanumeric, non-separator character `.`. -/
theorem claim_C8_counterexample :
    tableNameOf "dev.1" = "esphome_dev.1"
    ∧ '.' ∈ (tableNameOf "dev.1").data
    ∧ isAlnumChar '.' = false
    ∧ '.' ≠ '_' := by
  refine ⟨rfl, by decide, rfl, by decide⟩

/-- Claim C8, amended: the table name is derived deterministically from the
device name by replacing exactly the hyphens with underscores — no hyphen
survives, and every character of the result is a character of the fixed stem
`esphome_`, an underscore standing for a hyphen, or a non-hyphen character
of the device name carried through unreplaced (alphanumeric or not); the
flush registers the table as a time-partitioned hypertable with
`if_not_exists`. -/
theorem claim_C8 :
    (∀ (name : String) (c : Char), c ∈ (tableNameOf name).data → c ≠ '-')
    ∧ (∀ (name : String) (c : Char), c ∈ (tableNameOf name).data →
        c ∈ "esphome_".data ∨ c = '_' ∨ (c ∈ name.data ∧ c ≠ '-'))
    ∧ (∀ (t : Nat) (topic payload : String) (db : DB) (b : Batches),
        b.state = [(topic, payload)] →
        tableNameOf (firstSegment topic) ∈ (flushState t db b).1.hypertables) := by
  refine ⟨?_, ?_, ?_⟩
  · intro name c hc hcdash
    subst hcdash
    have hc' : '-' ∈ "esphome_".data ++ name.data.map (fun c => if c = '-' then '_' else c) := hc
    rcases List.mem_append.mp hc' with h1 | h2
    · exact absurd h1 (by decide)
    · obtain ⟨a, _, hfa⟩ := List.mem_map.mp h2
      by_cases ha : a = '-'
      · rw [if_pos ha] at hfa
        exact absurd hfa (by decide)
      · rw [if_neg ha] at hfa
        exact ha hfa
  · intro name c hc
    have hc' : c ∈ "esphome_".data ++ name.data.map (fun c => if c = '-' then '_' else c) := hc
    rcases List.mem_append.mp hc' with h1 | h2
    · exact Or.inl h1
    · obtain ⟨a, ha, hfa⟩ := List.mem_map.mp h2
      by_cases hd : a = '-'
      · rw [if_pos hd] at hfa
        exact Or.inr (Or.inl hfa.symm)
      · rw [if_neg hd] at hfa
        exact Or.inr (Or.inr ⟨hfa ▸ ha, hfa ▸ hd⟩)
  · intro t topic payload db b hb
    simp only [flushState, hb, List.isEmpty_cons, groupStates, List.foldl_cons,
      List.foldl_nil, addToGroup, Bool.false_eq_true, if_false]
    exact mem_ensureHypertable (ensureTable db (tableNameOf (firstSegment topic)))
      (tableNameOf (firstSegment topic))

/-- Witness for claim C8 at the device name `a-b` and a concrete state
batch for the device `kitchen-1`. -/
theorem claim_C8_witness :
    ('_' ≠ '-')
    ∧ ('_' ∈ "esphome_".data ∨ '_' = '_' ∨ ('_' ∈ "a-b".data ∧ '_' ≠ '-'))
    ∧ tableNameOf (firstSegment "kitchen-1/x/y/state")
        ∈ (flushState 0 dbEmpty
            { emptyQueues with state := [("kitchen-1/x/y/state", "1")] }).1.hypertables :=
  ⟨claim_C8.1 "a-b" '_' (by decide),
   claim_C8.2.1 "a-b" '_' (by decide),
   claim_C8.2.2 0 "kitchen-1/x/y/state" "1" dbEmpty
     { emptyQueues with state := [("kitchen-1/x/y/state", "1")] } rfl⟩

end Ingestor
